import Mathlib

/-!
Shallow embedding of the sensor-sampling and threshold-evaluation engine of
script.js (real-sensor mission terminal, 40 missions).

Modelling conventions: JS numbers are exact rationals, timestamps are integers,
byte buffers are lists of naturals.  Math.sqrt is modelled relationally by
IsSqrt (the unique nonnegative exact square root), so routines whose result
passes through Math.sqrt are stated as relations between inputs and results.
Sensor acquisition that can throw (ensureCamera / ensureMic) is modelled by an
Option: none is the permission-denied / hardware-unavailable path.
-/

namespace TerminalGame

/-- Relation holding when r is the value Math.sqrt returns on x, idealized to
exact arithmetic: the unique nonnegative square root. -/
def IsSqrt (x r : ℚ) : Prop := 0 ≤ r ∧ r * r = x

instance (x r : ℚ) : Decidable (IsSqrt x r) := by
  unfold IsSqrt; infer_instance

/-- Iteration count of the windowed sampling loops, script.js lines 206 and 230:
samples = Math.max(1, Math.floor(durationMs / sampleInterval)). -/
def sampleCount (durationMs sampleInterval : ℚ) : ℕ :=
  max 1 (Int.toNat ⌊durationMs / sampleInterval⌋)

/-- One RGBA pixel of a camera frame (getImageData byte quadruple). -/
structure Pixel where
  r : ℕ
  g : ℕ
  b : ℕ
  alpha : ℕ
deriving DecidableEq

/-- One camera frame: canvas dimensions plus the pixel data drawn from the video. -/
structure Frame where
  width : ℕ
  height : ℕ
  data : List Pixel
deriving DecidableEq

/-- Luminance of one pixel, line 214: 0.2126*R + 0.7152*G + 0.0722*B. -/
def pixelLum (p : Pixel) : ℚ := 0.2126 * p.r + 0.7152 * p.g + 0.0722 * p.b

/-- Per-frame reading of the brightness loop, lines 211-216: the summed pixel
luminances divided by width*height. -/
def frameLuminance (f : Frame) : ℚ :=
  (f.data.map pixelLum).sum / (f.width * f.height)

/-- The ordered list of per-frame readings collected by the loop of
measureBrightness; the camera is modelled as a stream of frames indexed by the
loop counter. -/
def brightnessReadings (frames : ℕ → Frame) (durationMs sampleInterval : ℚ) : List ℚ :=
  (List.range (sampleCount durationMs sampleInterval)).map fun k => frameLuminance (frames k)

/-- measureBrightness, lines 199-221: camera acquisition failure returns null;
otherwise total / cnt, where cnt counts the loop iterations. -/
def measureBrightness (camera : Option (ℕ → Frame)) (durationMs sampleInterval : ℚ) :
    Option ℚ :=
  match camera with
  | none => none
  | some frames =>
      let readings := brightnessReadings frames durationMs sampleInterval
      some (readings.sum / readings.length)

/-- Normalized audio sample, line 236: (data[j] - 128) / 128. -/
def byteNorm (b : ℕ) : ℚ := ((b : ℚ) - 128) / 128

/-- Mean of the squared normalized samples of one audio buffer: the quantity
inside Math.sqrt on line 239, sum / data.length. -/
def bufferMeanSquare (buf : List ℕ) : ℚ :=
  (buf.map fun b => byteNorm b * byteNorm b).sum / buf.length

/-- Raw audio buffers collected by the loop of measureSoundLevel, lines 230-243;
the analyser is modelled as a stream of buffers indexed by the loop counter. -/
def soundReadings (buffers : ℕ → List ℕ) (durationMs sampleInterval : ℚ) :
    List (List ℕ) :=
  (List.range (sampleCount durationMs sampleInterval)).map buffers

/-- measureSoundLevel with the mic available, lines 224-244, stated relationally
because each reading passes through Math.sqrt: result = total / cnt where the
k-th rms satisfies rms*rms = bufferMeanSquare(k-th buffer), rms nonnegative. -/
def MeasuresSoundLevel (buffers : ℕ → List ℕ) (durationMs sampleInterval : ℚ)
    (result : ℚ) : Prop :=
  ∃ rmsList : List ℚ,
    List.Forall₂ (fun buf r => IsSqrt (bufferMeanSquare buf) r)
      (soundReadings buffers durationMs sampleInterval) rmsList ∧
    result = rmsList.sum / rmsList.length

/-- measureSoundLevel including the mic-unavailable path (line 227): null. -/
def MeasuresSound (mic : Option (ℕ → List ℕ)) (durationMs sampleInterval : ℚ)
    (result : Option ℚ) : Prop :=
  match mic with
  | none => result = none
  | some buffers => ∃ r, result = some r ∧ MeasuresSoundLevel buffers durationMs sampleInterval r

/-- Outcome of one mission run.  The code prints a dedicated unavailability
message and returns false on a null measurement; unavailable is kept distinct
from failed here, and both are non-passing. -/
inductive Verdict where
  | passed
  | failed
  | unavailable
deriving DecidableEq

/-- The shared shape of the measuring mission bodies: a null measurement is the
distinct unavailable failure, otherwise the comparator decides pass/fail. -/
def missionVerdict (measured : Option ℚ) (cmp : ℚ → Bool) : Verdict :=
  match measured with
  | none => .unavailable
  | some m => if cmp m then .passed else .failed

/-- mission1, lines 342-351: measureBrightness(2000, 250); null is reported as
camera-unavailable failure; otherwise lum < 35 passes. -/
def mission1Verdict (camera : Option (ℕ → Frame)) : Verdict :=
  missionVerdict (measureBrightness camera 2000 250) fun lum => decide (lum < 35)

/-- One devicemotion event: acceleration components and arrival time (Date.now). -/
structure MotionEvent where
  x : ℚ
  y : ℚ
  z : ℚ
  t : ℤ
deriving DecidableEq

/-- The module-level accumulator of startMotionCounting: motionCounts and
lastMotionTimestamp. -/
structure MotionState where
  counts : ℕ
  lastTs : ℤ
deriving DecidableEq

/-- startMotionCounting resets both, lines 272-273. -/
def initMotionState : MotionState := ⟨0, 0⟩

/-- Squared acceleration magnitude x*x + y*y + z*z (line 277 before the sqrt). -/
def magSq (e : MotionEvent) : ℚ := e.x * e.x + e.y * e.y + e.z * e.z

/-- Guard of the motion handler, line 280: mag > 12 (stated on squares, which is
equivalent for the nonnegative root) and (lastMotionTimestamp falsy, i.e. 0, or
t - lastMotionTimestamp > 300). -/
def motionQualifies (s : MotionState) (e : MotionEvent) : Bool :=
  decide (144 < magSq e) && (s.lastTs == 0 || decide (300 < e.t - s.lastTs))

/-- One handler invocation, lines 274-284: on a qualifying event the counter is
incremented and the timestamp recorded, otherwise the state is unchanged. -/
def motionStep (s : MotionState) (e : MotionEvent) : MotionState :=
  if motionQualifies s e then ⟨s.counts + 1, e.t⟩ else s

/-- The accumulator after a whole sequence of motion events. -/
def runMotion (events : List MotionEvent) : MotionState :=
  events.foldl motionStep initMotionState

/-- Timestamps of exactly those events that increment the counter, starting from
state s. -/
def countedTimes : MotionState → List MotionEvent → List ℤ
  | _, [] => []
  | s, e :: rest =>
      if motionQualifies s e then e.t :: countedTimes ⟨s.counts + 1, e.t⟩ rest
      else countedTimes s rest

/-- One geolocation fix (coords of getCurrentPosition). -/
structure GeoFix where
  lat : ℚ
  lon : ℚ
deriving DecidableEq

/-- dx of mission24, line 648: (lat2 - lat1) * 111000. -/
def geoDx (p1 p2 : GeoFix) : ℚ := (p2.lat - p1.lat) * 111000

/-- dy of mission24, line 649: (lon2 - lon1) * 111000 * Math.cos(lat1 * PI/180).
The parameter cosLat1 stands for the (floating-point, hence rational) value the
code computes for Math.cos(lat1 * PI/180). -/
def geoDy (cosLat1 : ℚ) (p1 p2 : GeoFix) : ℚ := (p2.lon - p1.lon) * 111000 * cosLat1

/-- The quantity inside Math.sqrt on line 650: dx*dx + dy*dy. -/
def geoDistSq (cosLat1 : ℚ) (p1 p2 : GeoFix) : ℚ :=
  geoDx p1 p2 * geoDx p1 p2 + geoDy cosLat1 p1 p2 * geoDy cosLat1 p1 p2

/-- dist = Math.sqrt(dx*dx + dy*dy), line 650, stated relationally. -/
def MeasuresGeoDist (cosLat1 : ℚ) (p1 p2 : GeoFix) (dist : ℚ) : Prop :=
  IsSqrt (geoDistSq cosLat1 p1 p2) dist

/-- mission18, lines 572-579: rms !== null && rms > 0.01 && rms < 0.05. -/
def mission18Passes (rms : Option ℚ) : Bool :=
  match rms with
  | none => false
  | some r => decide ((0.01 : ℚ) < r) && decide (r < (0.05 : ℚ))

/-- A FaceDetector bounding box (x, y, width, height), used via faces.length. -/
structure FaceBox where
  x : ℚ
  y : ℚ
  width : ℚ
  height : ℚ
deriving DecidableEq

/-- Result object of detectFace, lines 248-267: availability flag plus detected
faces. -/
structure DetectResult where
  available : Bool
  faces : List FaceBox
deriving DecidableEq

/-- mission4, lines 388-402: without the FaceDetector API the mission fails at
once, before detectFace is ever called; otherwise res.available and a nonempty
face list decide it. -/
def mission4Passes (faceDetectorAvailable : Bool) (detect : DetectResult) : Bool :=
  if !faceDetectorAvailable then false
  else detect.available && !detect.faces.isEmpty

/-- mission9, lines 462-473: without the FaceDetector API it falls back to
passing whenever the camera is usable; otherwise res.available and a nonempty
face list decide it. -/
def mission9Passes (faceDetectorAvailable : Bool) (cameraOk : Bool)
    (detect : DetectResult) : Bool :=
  if !faceDetectorAvailable then cameraOk
  else detect.available && !detect.faces.isEmpty

/-- mission40, lines 867-883: faceOk = detected faces nonempty, micOk =
micR !== null && micR > 0.08, moveOk = motionCounts >= 2, joined by AND. -/
def mission40Passes (faceRes : DetectResult) (micR : Option ℚ) (motionCounts : ℕ) : Bool :=
  let faceOk := !faceRes.faces.isEmpty
  let micOk := match micR with
    | none => false
    | some r => decide ((0.08 : ℚ) < r)
  let moveOk := decide (2 ≤ motionCounts)
  faceOk && micOk && moveOk

/-- mission14, lines 532-539: faces nonempty && sound !== null && sound < 0.02. -/
def mission14Passes (faceRes : DetectResult) (sound : Option ℚ) : Bool :=
  (!faceRes.faces.isEmpty) &&
    (match sound with
     | none => false
     | some s => decide (s < (0.02 : ℚ)))

/-- Ids of the 40-entry mission catalog, lines 340-884, in array order. -/
def missionIds : List String :=
  ["mission1", "mission2", "mission3", "mission4", "mission5",
   "mission6", "mission7", "mission8", "mission9", "mission10",
   "mission11", "mission12", "mission13", "mission14", "mission15",
   "mission16", "mission17", "mission18", "mission19", "mission20",
   "mission21", "mission22", "mission23", "mission24", "mission25",
   "mission26", "mission27", "mission28", "mission29", "mission30",
   "mission31", "mission32", "mission33", "mission34", "mission35",
   "mission36", "mission37", "mission38", "mission39", "mission40"]

/-- Module-level mutable state read or written by runMissionById and by the
mission bodies: score, the sensor handles, the motion accumulator, and the
terminal output. -/
structure GameState where
  score : ℤ
  cameraOn : Bool
  micOn : Bool
  motionActive : Bool
  motionCounts : ℕ
  log : List String
deriving DecidableEq

/-- Failure penalty of line 906: -10 for mission40, -5 otherwise. -/
def missionPenalty (id : String) : ℤ := if id = "mission40" then -10 else -5

/-- runMissionById, lines 897-914.  The bodies of the 40 missions are not part
of this claim and are passed in as runMission: given the id and the state it
returns the state after the body ran together with its boolean result, or none
when the body threw (in which case no score change happens).  An id that is not
in the catalog only prints Mission not found and leaves everything else
untouched. -/
def runMissionById (runMission : String → GameState → GameState × Option Bool)
    (id : String) (s : GameState) : GameState :=
  match missionIds.find? (fun m => m == id) with
  | none => { s with log := s.log ++ ["Mission not found."] }
  | some mid =>
      let run := runMission mid s
      match run.2 with
      | none => { run.1 with log := run.1.log ++ ["Mission error."] }
      | some ok =>
          if ok then
            { run.1 with score := run.1.score + 10, log := run.1.log ++ ["Reward: +10"] }
          else
            { run.1 with score := run.1.score + missionPenalty mid,
                         log := run.1.log ++ ["Punishment: " ++ toString (missionPenalty mid)] }

/-- Wellformedness of a frame as produced by getImageData: the pixel array has
width*height entries (hence nonempty for a real canvas) and byte channels. -/
def ValidFrame (f : Frame) : Prop :=
  f.data.length = f.width * f.height ∧ 0 < f.data.length ∧
    ∀ p ∈ f.data, p.r ≤ 255 ∧ p.g ≤ 255 ∧ p.b ≤ 255

instance (f : Frame) : Decidable (ValidFrame f) := by
  unfold ValidFrame; infer_instance

/-- A uniformly black test frame (2 by 2). -/
def blackFrame : Frame := ⟨2, 2, List.replicate 4 ⟨0, 0, 0, 255⟩⟩

/-- A uniformly white test frame (2 by 2). -/
def whiteFrame : Frame := ⟨2, 2, List.replicate 4 ⟨255, 255, 255, 255⟩⟩

lemma sampleCount_cast (d i : ℚ) (hd : 0 < d) (hi : 0 < i) :
    (sampleCount d i : ℤ) = max 1 ⌊d / i⌋ := by
  have hf : 0 ≤ ⌊d / i⌋ := Int.floor_nonneg.mpr (le_of_lt (div_pos hd hi))
  unfold sampleCount
  rw [Nat.cast_max, Int.toNat_of_nonneg hf, Nat.cast_one]

lemma one_le_sampleCount (d i : ℚ) : 1 ≤ sampleCount d i := le_max_left 1 _

lemma avg_bounds (l : List ℚ) (B : ℚ) (hne : l ≠ []) (h : ∀ x ∈ l, 0 ≤ x ∧ x ≤ B) :
    0 ≤ l.sum / l.length ∧ l.sum / l.length ≤ B := by
  have hlen : 0 < (l.length : ℚ) := by
    have := List.length_pos.mpr hne
    exact_mod_cast this
  refine ⟨div_nonneg (List.sum_nonneg fun x hx => (h x hx).1) hlen.le, ?_⟩
  rw [div_le_iff₀ hlen]
  have hsum : l.sum ≤ l.length • B := List.sum_le_card_nsmul l B fun x hx => (h x hx).2
  simpa [nsmul_eq_mul, mul_comm] using hsum

lemma pixelLum_nonneg (p : Pixel) : 0 ≤ pixelLum p := by
  unfold pixelLum
  positivity

lemma pixelLum_le (p : Pixel) (h : p.r ≤ 255 ∧ p.g ≤ 255 ∧ p.b ≤ 255) :
    pixelLum p ≤ 255 := by
  have hr : (p.r : ℚ) ≤ 255 := by exact_mod_cast h.1
  have hg : (p.g : ℚ) ≤ 255 := by exact_mod_cast h.2.1
  have hb : (p.b : ℚ) ≤ 255 := by exact_mod_cast h.2.2
  unfold pixelLum
  linarith

lemma frameLuminance_bounds (f : Frame) (hf : ValidFrame f) :
    0 ≤ frameLuminance f ∧ frameLuminance f ≤ 255 := by
  obtain ⟨hlen, hpos, hb⟩ := hf
  have hne : f.data.map pixelLum ≠ [] := by
    simp only [ne_eq, List.map_eq_nil_iff]
    exact List.length_pos.mp hpos
  have hmem : ∀ x ∈ f.data.map pixelLum, 0 ≤ x ∧ x ≤ 255 := by
    intro x hx
    obtain ⟨p, hp, rfl⟩ := List.mem_map.mp hx
    exact ⟨pixelLum_nonneg p, pixelLum_le p (hb p hp)⟩
  have havg := avg_bounds (f.data.map pixelLum) 255 hne hmem
  have hcast : ((f.width : ℚ) * f.height) = ((f.data.map pixelLum).length : ℚ) := by
    rw [List.length_map, hlen]
    push_cast
    ring
  unfold frameLuminance
  rw [hcast]
  exact havg

/-- C1: for every sampling window with positive duration and interval, the
windowed sampling loops of the brightness and sound-level measurers collect
exactly max(1, floor(durationMs/intervalMs)) readings, the final average
divides by exactly that count, and the count is at least 1, so the division in
the final average is never by zero. -/
theorem sampling_window_count (frames : ℕ → Frame) (buffers : ℕ → List ℕ)
    (d i : ℚ) (hd : 0 < d) (hi : 0 < i) :
    ((brightnessReadings frames d i).length : ℤ) = max 1 ⌊d / i⌋ ∧
    ((soundReadings buffers d i).length : ℤ) = max 1 ⌊d / i⌋ ∧
    1 ≤ (brightnessReadings frames d i).length ∧
    ((brightnessReadings frames d i).length : ℚ) ≠ 0 ∧
    measureBrightness (some frames) d i =
      some ((brightnessReadings frames d i).sum /
        ((brightnessReadings frames d i).length : ℚ)) ∧
    (∀ r : ℚ, MeasuresSoundLevel buffers d i r →
      ∃ rmsList : List ℚ, (rmsList.length : ℤ) = max 1 ⌊d / i⌋ ∧
        1 ≤ rmsList.length ∧ r = rmsList.sum / (rmsList.length : ℚ)) := by
  have hlb : (brightnessReadings frames d i).length = sampleCount d i := by
    simp [brightnessReadings]
  have hls : (soundReadings buffers d i).length = sampleCount d i := by
    simp [soundReadings]
  have hcast := sampleCount_cast d i hd hi
  have hone := one_le_sampleCount d i
  refine ⟨by rw [hlb]; exact hcast, by rw [hls]; exact hcast,
    by rw [hlb]; exact hone, ?_, rfl, ?_⟩
  · rw [hlb]
    have : sampleCount d i ≠ 0 := by omega
    exact_mod_cast this
  · intro r hr
    obtain ⟨rmsList, hfor, hres⟩ := hr
    have hlen := List.Forall₂.length_eq hfor
    exact ⟨rmsList, by rw [← hlen, hls]; exact hcast, by rw [← hlen, hls]; exact hone, hres⟩

theorem sampling_window_count_witness :
    (0 : ℚ) < 2000 ∧ (0 : ℚ) < 250 ∧
    ((brightnessReadings (fun _ => blackFrame) 2000 250).length : ℤ) =
      max 1 ⌊(2000 : ℚ) / 250⌋ := by
  refine ⟨by simp, by simp, ?_⟩
  exact (sampling_window_count (fun _ => blackFrame) (fun _ => []) 2000 250
    (by simp) (by simp)).1

/-- C2: when sensor acquisition fails, the measurement routine returns the
distinct null outcome (never a numeric zero), and any mission built on the
shared null-check pattern reports the unavailability failure, never a pass,
regardless of comparator and threshold; so does mission1 concretely. -/
theorem acquisition_failure_unavailable :
    (∀ d i : ℚ, measureBrightness none d i = none) ∧
    (∀ d i z : ℚ, measureBrightness none d i ≠ some z) ∧
    (∀ cmp : ℚ → Bool, missionVerdict none cmp = Verdict.unavailable) ∧
    (∀ cmp : ℚ → Bool, missionVerdict none cmp ≠ Verdict.passed) ∧
    mission1Verdict none = Verdict.unavailable ∧
    mission1Verdict none ≠ Verdict.passed ∧
    (∀ (d i : ℚ) (res : Option ℚ), MeasuresSound none d i res → res = none) := by
  refine ⟨fun d i => rfl, fun d i z => by simp [measureBrightness],
    fun cmp => rfl, fun cmp => by simp [missionVerdict],
    rfl, by simp [mission1Verdict, missionVerdict, measureBrightness],
    fun d i res h => h⟩

theorem acquisition_failure_unavailable_witness :
    MeasuresSound none 6000 250 (none : Option ℚ) ∧ (none : Option ℚ) = none :=
  ⟨rfl, acquisition_failure_unavailable.2.2.2.2.2.2 6000 250 none rfl⟩

lemma sampleCount_2000_250 : sampleCount 2000 250 = 8 := by
  have h : ⌊(2000 : ℚ) / 250⌋ = 8 := by norm_num
  unfold sampleCount
  rw [h]
  decide

lemma frameLuminance_black : frameLuminance blackFrame = 0 := by
  norm_num [frameLuminance, blackFrame, pixelLum, List.sum_replicate]

lemma frameLuminance_white : frameLuminance whiteFrame = 255 := by
  norm_num [frameLuminance, whiteFrame, pixelLum, List.sum_replicate]

lemma measureBrightness_black :
    measureBrightness (some fun _ => blackFrame) 2000 250 = some 0 := by
  simp only [measureBrightness, brightnessReadings, sampleCount_2000_250,
    frameLuminance_black]
  norm_num [List.range_succ]

lemma measureBrightness_white :
    measureBrightness (some fun _ => whiteFrame) 2000 250 = some 255 := by
  simp only [measureBrightness, brightnessReadings, sampleCount_2000_250,
    frameLuminance_white]
  norm_num [List.range_succ]

/-- C3: the mean-luminance reducer averages per-pixel luminance
0.2126R + 0.7152G + 0.0722B over the pixels of each frame and then across
frames, so on wellformed frames the measured value lies in [0,255]; with
mission1's window (2000ms, 250ms) and comparator lt(35), an all-black frame
source measures 0 and passes, and an all-white frame source measures 255 and
fails. -/
theorem brightness_reducer_spec :
    (∀ (frames : ℕ → Frame) (d i : ℚ), (∀ k, ValidFrame (frames k)) →
      ∃ m : ℚ, measureBrightness (some frames) d i = some m ∧ 0 ≤ m ∧ m ≤ 255) ∧
    measureBrightness (some fun _ => blackFrame) 2000 250 = some 0 ∧
    mission1Verdict (some fun _ => blackFrame) = Verdict.passed ∧
    measureBrightness (some fun _ => whiteFrame) 2000 250 = some 255 ∧
    mission1Verdict (some fun _ => whiteFrame) = Verdict.failed := by
  refine ⟨?_, measureBrightness_black, ?_, measureBrightness_white, ?_⟩
  · intro frames d i hvalid
    refine ⟨(brightnessReadings frames d i).sum /
      ((brightnessReadings frames d i).length : ℚ), rfl, ?_⟩
    have hne : brightnessReadings frames d i ≠ [] := by
      intro hcon
      have h1 := one_le_sampleCount d i
      have h2 : (brightnessReadings frames d i).length = 0 := by rw [hcon]; rfl
      rw [brightnessReadings, List.length_map, List.length_range] at h2
      omega
    refine avg_bounds _ 255 hne ?_
    intro x hx
    obtain ⟨k, hk, rfl⟩ := List.mem_map.mp hx
    exact frameLuminance_bounds (frames k) (hvalid k)
  · rw [mission1Verdict, measureBrightness_black]
    simp [missionVerdict]
  · rw [mission1Verdict, measureBrightness_white]
    norm_num [missionVerdict]

theorem brightness_reducer_spec_witness :
    ValidFrame blackFrame ∧
    ∃ m : ℚ, measureBrightness (some fun _ => blackFrame) 2000 250 = some m ∧
      0 ≤ m ∧ m ≤ 255 :=
  ⟨by decide, brightness_reducer_spec.1 (fun _ => blackFrame) 2000 250
    (fun _ => (by decide : ValidFrame blackFrame))⟩

lemma byteNorm_128 : byteNorm 128 = 0 := by
  norm_num [byteNorm]

lemma bufferMeanSquare_silence (buf : List ℕ) (h : ∀ b ∈ buf, b = 128) :
    bufferMeanSquare buf = 0 := by
  unfold bufferMeanSquare
  rw [List.sum_eq_zero, zero_div]
  intro x hx
  obtain ⟨b, hb, rfl⟩ := List.mem_map.mp hx
  rw [h b hb, byteNorm_128, mul_zero]

lemma isSqrt_zero_eq (r : ℚ) (h : IsSqrt 0 r) : r = 0 :=
  mul_self_eq_zero.mp h.2

lemma forall₂_silence_zero {l₁ : List (List ℕ)} {l₂ : List ℚ}
    (hfor : List.Forall₂ (fun buf r => IsSqrt (bufferMeanSquare buf) r) l₁ l₂)
    (hsil : ∀ buf ∈ l₁, ∀ b ∈ buf, b = 128) : ∀ r ∈ l₂, r = 0 := by
  induction hfor with
  | nil => intro r hr; cases hr
  | cons h _ ih =>
      intro r hr
      rcases List.mem_cons.mp hr with hr | hr
      · subst hr
        have h0 := bufferMeanSquare_silence _ (hsil _ (List.mem_cons_self _ _))
        rw [h0] at h
        exact isSqrt_zero_eq _ h
      · exact ih (fun buf hb => hsil buf (List.mem_cons_of_mem _ hb)) r hr

/-- C4: the sound-RMS reducer normalizes byte samples via (byte-128)/128, takes
the root-mean-square per buffer and averages across readings; on any input
sequence whose buffers hold only the byte 128, the reduced value is exactly 0. -/
theorem sound_rms_silence (buffers : ℕ → List ℕ) (d i : ℚ) (r : ℚ)
    (hsil : ∀ k : ℕ, ∀ b ∈ buffers k, b = 128)
    (hm : MeasuresSoundLevel buffers d i r) : r = 0 := by
  obtain ⟨rmsList, hfor, hres⟩ := hm
  have hall : ∀ x ∈ rmsList, x = 0 := by
    refine forall₂_silence_zero hfor ?_
    intro buf hb
    obtain ⟨k, _, rfl⟩ := List.mem_map.mp hb
    exact hsil k
  rw [hres, List.sum_eq_zero hall, zero_div]

lemma forall₂_replicate {R : List ℕ → ℚ → Prop} {a : List ℕ} {b : ℚ} (h : R a b) :
    ∀ n : ℕ, List.Forall₂ R (List.replicate n a) (List.replicate n b)
  | 0 => List.Forall₂.nil
  | n + 1 => List.Forall₂.cons h (forall₂_replicate h n)

lemma measuresSound_const128 :
    MeasuresSoundLevel (fun _ => List.replicate 4 (128 : ℕ)) 6000 250 0 := by
  refine ⟨List.replicate (sampleCount 6000 250) 0, ?_, by simp [List.sum_replicate]⟩
  have hmap : soundReadings (fun _ => List.replicate 4 (128 : ℕ)) 6000 250 =
      List.replicate (sampleCount 6000 250) (List.replicate 4 (128 : ℕ)) := by
    rw [soundReadings]
    refine List.eq_replicate_iff.mpr ⟨by simp, ?_⟩
    intro b hb
    obtain ⟨k, _, rfl⟩ := List.mem_map.mp hb
    rfl
  rw [hmap]
  refine forall₂_replicate ?_ _
  rw [bufferMeanSquare_silence _ (fun _ hb => List.eq_of_mem_replicate hb)]
  exact ⟨le_refl 0, by norm_num⟩

theorem sound_rms_silence_witness :
    MeasuresSoundLevel (fun _ => List.replicate 4 (128 : ℕ)) 6000 250 0 ∧
    (0 : ℚ) = 0 :=
  ⟨measuresSound_const128,
    sound_rms_silence (fun _ => List.replicate 4 (128 : ℕ)) 6000 250 0
      (fun _ _ hb => List.eq_of_mem_replicate hb) measuresSound_const128⟩

lemma motionQualifies_iff (s : MotionState) (e : MotionEvent) :
    motionQualifies s e = true ↔
      144 < magSq e ∧ (s.lastTs = 0 ∨ 300 < e.t - s.lastTs) := by
  simp [motionQualifies]

lemma counts_eq_countedTimes (events : List MotionEvent) :
    ∀ s : MotionState,
      (events.foldl motionStep s).counts = s.counts + (countedTimes s events).length := by
  induction events with
  | nil => intro s; simp [countedTimes]
  | cons e rest ih =>
      intro s
      by_cases hq : motionQualifies s e
      · rw [List.foldl_cons, countedTimes, if_pos hq, motionStep, if_pos hq]
        rw [ih ⟨s.counts + 1, e.t⟩]
        simp
        omega
      · rw [List.foldl_cons, countedTimes, if_neg hq, motionStep, if_neg hq]
        exact ih s

lemma countedTimes_sep (events : List MotionEvent) :
    ∀ s : MotionState, (∀ e ∈ events, 0 < e.t) →
      List.Chain' (fun a b : ℤ => 300 < b - a) (countedTimes s events) ∧
      (∀ a ∈ (countedTimes s events).head?, s.lastTs ≠ 0 → 300 < a - s.lastTs) := by
  induction events with
  | nil => intro s _; exact ⟨List.chain'_nil, by simp [countedTimes]⟩
  | cons e rest ih =>
      intro s hpos
      have he : 0 < e.t := hpos e (List.mem_cons_self _ _)
      have hrest : ∀ x ∈ rest, 0 < x.t := fun x hx => hpos x (List.mem_cons_of_mem _ hx)
      by_cases hq : motionQualifies s e
      · have hcons : countedTimes s (e :: rest) =
            e.t :: countedTimes ⟨s.counts + 1, e.t⟩ rest := by
          rw [countedTimes, if_pos hq]
        obtain ⟨ihchain, ihhead⟩ := ih ⟨s.counts + 1, e.t⟩ hrest
        refine ⟨?_, ?_⟩
        · rw [hcons, List.chain'_cons']
          exact ⟨fun y hy => ihhead y hy (by simpa using ne_of_gt he), ihchain⟩
        · rw [hcons]
          intro a ha hne
          simp only [List.head?_cons, Option.mem_def, Option.some.injEq] at ha
          subst ha
          rcases (motionQualifies_iff s e).mp hq with ⟨_, h0 | hgap⟩
          · exact absurd h0 hne
          · exact hgap
      · have hcons : countedTimes s (e :: rest) = countedTimes s rest := by
          rw [countedTimes, if_neg hq]
        obtain ⟨ihchain, ihhead⟩ := ih s hrest
        rw [hcons]
        exact ⟨ihchain, ihhead⟩

/-- C5: the motion counter starts at zero; a handler call increments it (by
exactly one) only on an event whose squared magnitude exceeds 144, i.e. whose
magnitude exceeds 12, and only when the debounce allows it; the counter equals
the number of counted events; and for any event sequence with positive
timestamps, the timestamps of counted events are pairwise more than 300ms
apart, so two qualifying events less than 300ms apart are never both counted. -/
theorem motion_debounce_spec :
    initMotionState.counts = 0 ∧
    (∀ (s : MotionState) (e : MotionEvent), (motionStep s e).counts ≠ s.counts →
      (144 < magSq e ∧ (s.lastTs = 0 ∨ 300 < e.t - s.lastTs)) ∧
      (motionStep s e).counts = s.counts + 1) ∧
    (∀ (e : MotionEvent) (m : ℚ), IsSqrt (magSq e) m → (12 < m ↔ 144 < magSq e)) ∧
    (∀ events : List MotionEvent,
      (runMotion events).counts = (countedTimes initMotionState events).length) ∧
    (∀ events : List MotionEvent, (∀ e ∈ events, 0 < e.t) →
      List.Pairwise (fun a b : ℤ => 300 < b - a) (countedTimes initMotionState events)) := by
  refine ⟨rfl, ?_, ?_, ?_, ?_⟩
  · intro s e hne
    by_cases hq : motionQualifies s e
    · exact ⟨(motionQualifies_iff s e).mp hq, by rw [motionStep, if_pos hq]⟩
    · exact absurd (by rw [motionStep, if_neg hq]) hne
  · intro e m hm
    obtain ⟨hm0, hmsq⟩ := hm
    constructor
    · intro h12
      have := mul_self_lt_mul_self (by norm_num : (0:ℚ) ≤ 12) h12
      rw [hmsq] at this
      linarith
    · intro hsq
      by_contra hle
      push_neg at hle
      have := mul_self_le_mul_self hm0 hle
      rw [hmsq] at this
      linarith
  · intro events
    rw [runMotion, counts_eq_countedTimes events initMotionState]
    simp [initMotionState]
  · intro events hpos
    have hchain := (countedTimes_sep events initMotionState hpos).1
    haveI : IsTrans ℤ (fun a b : ℤ => 300 < b - a) :=
      ⟨fun a b c h1 h2 => by omega⟩
    exact List.chain'_iff_pairwise.mp hchain

theorem motion_debounce_spec_witness :
    (∀ e ∈ [MotionEvent.mk 13 0 0 1000, MotionEvent.mk 13 0 0 1100,
      MotionEvent.mk 13 0 0 1500], 0 < e.t) ∧
    List.Pairwise (fun a b : ℤ => 300 < b - a)
      (countedTimes initMotionState [MotionEvent.mk 13 0 0 1000,
        MotionEvent.mk 13 0 0 1100, MotionEvent.mk 13 0 0 1500]) :=
  ⟨by decide, motion_debounce_spec.2.2.2.2 [MotionEvent.mk 13 0 0 1000,
    MotionEvent.mk 13 0 0 1100, MotionEvent.mk 13 0 0 1500] (by decide)⟩

lemma geoDistSq_self (c : ℚ) (p : GeoFix) : geoDistSq c p p = 0 := by
  simp [geoDistSq, geoDx, geoDy]

lemma geoDistSq_equator (c : ℚ) :
    geoDistSq c ⟨0, 0⟩ ⟨1 / 10000, 0⟩ = (111 / 10) * (111 / 10) := by
  norm_num [geoDistSq, geoDx, geoDy]

/-- C6: the geo-displacement reducer computes dx = dLat*111000 and
dy = dLon*111000*cos(lat1 rad) and returns sqrt(dx*dx + dy*dy): for two
identical fixes the distance is exactly 0, and for two fixes 0.0001 degrees of
latitude apart at the equator it is exactly 11.1, hence within 1% of the
expected planar distance, whatever value the cosine takes. -/
theorem geo_displacement_spec :
    (∀ (c : ℚ) (p : GeoFix) (dist : ℚ), MeasuresGeoDist c p p dist → dist = 0) ∧
    (∀ (c dist : ℚ), MeasuresGeoDist c ⟨0, 0⟩ ⟨1 / 10000, 0⟩ dist →
      dist = 111 / 10 ∧ |dist - 111 / 10| ≤ (1 / 100) * (111 / 10)) := by
  constructor
  · intro c p dist hm
    obtain ⟨_, hsq⟩ := hm
    rw [geoDistSq_self] at hsq
    exact mul_self_eq_zero.mp hsq
  · intro c dist hm
    obtain ⟨h0, hsq⟩ := hm
    rw [geoDistSq_equator] at hsq
    have heq : dist = 111 / 10 :=
      (mul_self_inj_of_nonneg h0 (by norm_num)).mp hsq
    refine ⟨heq, ?_⟩
    rw [heq]
    norm_num

lemma measuresGeoDist_self_example : MeasuresGeoDist 1 ⟨0, 0⟩ ⟨0, 0⟩ 0 :=
  ⟨le_refl 0, by rw [geoDistSq_self, mul_zero]⟩

lemma measuresGeoDist_equator_example :
    MeasuresGeoDist 1 ⟨0, 0⟩ ⟨1 / 10000, 0⟩ (111 / 10) :=
  ⟨by norm_num, by rw [geoDistSq_equator]⟩

theorem geo_displacement_spec_witness :
    MeasuresGeoDist 1 ⟨0, 0⟩ ⟨0, 0⟩ 0 ∧ (0 : ℚ) = 0 ∧
    MeasuresGeoDist 1 ⟨0, 0⟩ ⟨1 / 10000, 0⟩ (111 / 10) ∧
    (111 / 10 : ℚ) = 111 / 10 ∧ |(111 / 10 : ℚ) - 111 / 10| ≤ (1 / 100) * (111 / 10) :=
  ⟨measuresGeoDist_self_example,
    geo_displacement_spec.1 1 ⟨0, 0⟩ 0 measuresGeoDist_self_example,
    measuresGeoDist_equator_example,
    geo_displacement_spec.2 1 (111 / 10) measuresGeoDist_equator_example⟩

/-- C7 counterexample: the claim that the whisper mission's in-range comparator
passes with the bounds included fails at the lower bound 0.01, where the code's
strict comparison rejects the measurement. -/
theorem inRange_inclusive_cx :
    ¬ (∀ m : ℚ, mission18Passes (some m) = true ↔
        ((0.01 : ℚ) ≤ m ∧ m ≤ (0.05 : ℚ))) := by
  intro h
  have h1 := (h 0.01).mpr (by norm_num)
  simp only [mission18Passes, Bool.and_eq_true, decide_eq_true_eq] at h1
  exact absurd h1.1 (lt_irrefl _)

/-- C7 amended: the whisper mission's in-range comparator is strict at both
bounds: it passes exactly when 0.01 < measured < 0.05, and a null measurement
never passes. -/
theorem inRange_strict_spec :
    (∀ m : ℚ, mission18Passes (some m) = true ↔
      ((0.01 : ℚ) < m ∧ m < (0.05 : ℚ))) ∧
    mission18Passes none = false := by
  refine ⟨fun m => ?_, rfl⟩
  simp [mission18Passes]

/-- C8: a composite mission passes exactly when every sub-evaluation passes;
a null (unavailable) or failing sub-result forces a failure; concretely, with
face and motion passing but the microphone unavailable mission40 fails, and
with all three passing it passes; mission14 likewise fails on a null sound
measurement. -/
theorem composite_and_spec :
    (∀ (f : DetectResult) (m : Option ℚ) (c : ℕ),
      mission40Passes f m c = true ↔
        (f.faces ≠ [] ∧ (∃ r, m = some r ∧ (0.08 : ℚ) < r) ∧ 2 ≤ c)) ∧
    (∀ (f : DetectResult) (c : ℕ), mission40Passes f none c = false) ∧
    mission40Passes ⟨true, [⟨0, 0, 10, 10⟩]⟩ none 5 = false ∧
    mission40Passes ⟨true, [⟨0, 0, 10, 10⟩]⟩ (some (1 / 10)) 5 = true ∧
    (∀ f : DetectResult, mission14Passes f none = false) := by
  refine ⟨?_, ?_, ?_, ?_, ?_⟩
  · intro f m c
    cases m with
    | none => simp [mission40Passes]
    | some r =>
        simp [mission40Passes, List.isEmpty_iff, And.comm]
        tauto
  · intro f c
    simp [mission40Passes]
  · rfl
  · norm_num [mission40Passes]
  · intro f
    simp [mission14Passes]

/-- C9 counterexample: mission9 is a face-presence mission, yet with the
face-detection capability unsupported and a usable camera it returns a pass,
so a missing capability can produce a passing verdict. -/
theorem face_capability_cx : mission9Passes false true ⟨false, []⟩ = true := rfl

/-- C9 amended: for the detectFace-based mission4 an unsupported face-detection
capability fails the mission immediately, independently of any detection
result (the reducer is never consulted); mission9, however, deliberately falls
back when the capability is unsupported and passes exactly when the camera is
usable. -/
theorem face_capability_spec :
    (∀ d : DetectResult, mission4Passes false d = false) ∧
    (∀ (cam : Bool) (d : DetectResult), mission9Passes false cam d = cam) ∧
    (∀ (fd : Bool) (d : DetectResult), mission4Passes fd d = true →
      fd = true ∧ d.available = true ∧ d.faces ≠ []) := by
  refine ⟨fun d => rfl, fun cam d => rfl, ?_⟩
  intro fd d h
  cases fd with
  | false => exact absurd h (by simp [mission4Passes])
  | true =>
      simp only [mission4Passes, Bool.not_true, Bool.false_eq_true, if_false,
        Bool.and_eq_true, Bool.not_eq_true'] at h
      refine ⟨rfl, h.1, fun hc => ?_⟩
      rw [hc] at h
      simp at h

theorem face_capability_spec_witness :
    mission4Passes true ⟨true, [⟨0, 0, 10, 10⟩]⟩ = true ∧
    (true = true ∧ (⟨true, [⟨0, 0, 10, 10⟩]⟩ : DetectResult).available = true ∧
      (⟨true, [⟨0, 0, 10, 10⟩]⟩ : DetectResult).faces ≠ []) :=
  ⟨rfl, face_capability_spec.2.2 true ⟨true, [⟨0, 0, 10, 10⟩]⟩ rfl⟩

/-- C10: the catalog has exactly 40 missions, mission41 is not among them, and
running an unknown id only reports Mission not found: the score, the sensor
flags and the motion counter are untouched and no reward or penalty applies. -/
theorem unknown_mission_noop :
    missionIds.length = 40 ∧
    "mission41" ∉ missionIds ∧
    (∀ (runMission : String → GameState → GameState × Option Bool) (s : GameState),
      runMissionById runMission "mission41" s =
        { s with log := s.log ++ ["Mission not found."] }) ∧
    (∀ (runMission : String → GameState → GameState × Option Bool)
        (id : String) (s : GameState),
      missionIds.find? (fun m => m == id) = none →
      runMissionById runMission id s =
          { s with log := s.log ++ ["Mission not found."] } ∧
        (runMissionById runMission id s).score = s.score ∧
        (runMissionById runMission id s).cameraOn = s.cameraOn ∧
        (runMissionById runMission id s).micOn = s.micOn ∧
        (runMissionById runMission id s).motionActive = s.motionActive ∧
        (runMissionById runMission id s).motionCounts = s.motionCounts) := by
  have hfind : ∀ (runMission : String → GameState → GameState × Option Bool)
      (id : String) (s : GameState),
      missionIds.find? (fun m => m == id) = none →
      runMissionById runMission id s = { s with log := s.log ++ ["Mission not found."] } := by
    intro runMission id s h
    rw [runMissionById, h]
  refine ⟨rfl, by decide, ?_, ?_⟩
  · intro runMission s
    exact hfind runMission "mission41" s (by decide)
  · intro runMission id s h
    have heq := hfind runMission id s h
    rw [heq]
    exact ⟨rfl, rfl, rfl, rfl, rfl, rfl⟩

theorem unknown_mission_noop_witness :
    missionIds.find? (fun m => m == "mission41") = none ∧
    (∀ (runMission : String → GameState → GameState × Option Bool) (s : GameState),
      runMissionById runMission "mission41" s =
          { s with log := s.log ++ ["Mission not found."] } ∧
        (runMissionById runMission "mission41" s).score = s.score ∧
        (runMissionById runMission "mission41" s).cameraOn = s.cameraOn ∧
        (runMissionById runMission "mission41" s).micOn = s.micOn ∧
        (runMissionById runMission "mission41" s).motionActive = s.motionActive ∧
        (runMissionById runMission "mission41" s).motionCounts = s.motionCounts) :=
  ⟨by decide, fun runMission s =>
    unknown_mission_noop.2.2.2 runMission "mission41" s (by decide)⟩

end TerminalGame
